import Mathlib

/-!
# Verification of the recipe-search caching proxy (fastapi-proxy/main.py)

Shallow embedding of the proxy's core pipeline:

* `generate_cache_key` — MD5 hex digest of `endpoint ++ ":" ++ json.dumps(data, sort_keys=True)`
  (main.py lines 111-114).  JSON values are modelled by `JValue` (strings and integers, the two
  shapes the handlers actually put into the key data); `json.dumps` with `sort_keys=True` and the
  default separators is modelled by `dumpsSortKeys`; MD5 is implemented in full over byte lists
  (`md5hex`), with all 32-bit arithmetic carried out on `Nat` modulo `2^32`.
* the enhanced-search fan-out pipeline (`enhanced_search`, main.py lines 327-384), with the three
  sub-search outcomes supplied as inputs (`Option (List Recipe)`: `none` is a gathered exception
  or a payload lacking a `results` field).  The float `similarity_score` is modelled as `ℚ`
  (ordering behaviour on ordinary, non-NaN values is what the properties concern).
* the cached single-operation handler (`cached_search`, the common body of the
  `/search/*` endpoints, main.py lines 189-325), with the redis store modelled as an optional
  explicit state (`RedisState`): `none` models a disabled client, `reachable := false` a store
  whose every operation raises (those exceptions are swallowed by `get_cached_result` /
  `set_cached_result`, main.py lines 116-137).  TTL expiry and wall-clock timing are not
  modelled; elapsed times are passed in as parameters.
-/

/-! ## Bytes of a string (`str.encode()`, UTF-8) -/

/-- UTF-8 encoding of one character, as byte values. -/
def encodeChar (c : Char) : List Nat :=
  let n := c.toNat
  if n < 128 then [n]
  else if n < 2048 then [192 + n / 64, 128 + n % 64]
  else if n < 65536 then [224 + n / 4096, 128 + n / 64 % 64, 128 + n % 64]
  else [240 + n / 262144, 128 + n / 4096 % 64, 128 + n / 64 % 64, 128 + n % 64]

/-- UTF-8 bytes of a string, modelling Python's `str.encode()`. -/
def strBytes (s : String) : List Nat :=
  (s.data.map encodeChar).flatten

/-! ## JSON serialization (`json.dumps(data, sort_keys=True)`) -/

/-- JSON values appearing in cache-key data: the request dicts hold strings and ints. -/
inductive JValue where
  | str : String → JValue
  | num : Int → JValue
deriving DecidableEq

/-- Lower-case hex digit. -/
def hexDigit (n : Nat) : Char :=
  if n < 10 then Char.ofNat (48 + n) else Char.ofNat (87 + n)

/-- Four-digit hex, for `\uXXXX` escapes. -/
def hex4 (n : Nat) : String :=
  String.mk [hexDigit (n / 4096 % 16), hexDigit (n / 256 % 16), hexDigit (n / 16 % 16),
    hexDigit (n % 16)]

/-- JSON string escaping as `json.dumps` performs it with the default `ensure_ascii=True`:
quote and backslash get two-character escapes, as do the usual control shorthands; every other
character outside the printable ASCII range `0x20`-`0x7e` becomes `\uXXXX` (astral code points
become a surrogate pair). -/
def escapeChar (c : Char) : String :=
  if c = '"' then "\\\""
  else if c = '\\' then "\\\\"
  else if c = '\n' then "\\n"
  else if c = '\t' then "\\t"
  else if c = '\r' then "\\r"
  else if c.toNat = 8 then "\\b"
  else if c.toNat = 12 then "\\f"
  else if c.toNat < 32 || 127 ≤ c.toNat then
    if c.toNat < 65536 then "\\u" ++ hex4 c.toNat
    else
      let v := c.toNat - 65536
      "\\u" ++ hex4 (55296 + v / 1024) ++ "\\u" ++ hex4 (56320 + v % 1024)
  else String.singleton c

/-- Serialization of one JSON value: strings are quoted and escaped, ints print in decimal. -/
def JValue.dump : JValue → String
  | .str s => "\"" ++ String.join (s.data.map escapeChar) ++ "\""
  | .num n => toString n

/-- The key order `json.dumps(-, sort_keys=True)` uses: lexicographic on the keys. -/
def sortKeysList (data : List (String × JValue)) : List (String × JValue) :=
  List.insertionSort (fun p q => p.1 ≤ q.1) data

/-- `json.dumps(data, sort_keys=True)` on a string-keyed dict, with the default separators
`", "` and `": "`.  A Python dict is modelled as an association list with distinct keys, in
insertion order. -/
def dumpsSortKeys (data : List (String × JValue)) : String :=
  "\x7b" ++ String.intercalate ", "
      ((sortKeysList data).map (fun p => (JValue.str p.1).dump ++ ": " ++ p.2.dump))
    ++ "\x7d"

/-! ## MD5 (RFC 1321), over byte lists, 32-bit words as `Nat` mod `2^32` -/

/-- `2^32`. -/
def w32 : Nat := 4294967296

/-- 32-bit left rotation. -/
def rotl32 (x s : Nat) : Nat :=
  ((x <<< s) ||| (x >>> (32 - s))) % w32

/-- The 64 MD5 sine-derived constants. -/
def md5K : List Nat :=
  [0xd76aa478, 0xe8c7b756, 0x242070db, 0xc1bdceee, 0xf57c0faf, 0x4787c62a, 0xa8304613,
   0xfd469501, 0x698098d8, 0x8b44f7af, 0xffff5bb1, 0x895cd7be, 0x6b901122, 0xfd987193,
   0xa679438e, 0x49b40821, 0xf61e2562, 0xc040b340, 0x265e5a51, 0xe9b6c7aa, 0xd62f105d,
   0x02441453, 0xd8a1e681, 0xe7d3fbc8, 0x21e1cde6, 0xc33707d6, 0xf4d50d87, 0x455a14ed,
   0xa9e3e905, 0xfcefa3f8, 0x676f02d9, 0x8d2a4c8a, 0xfffa3942, 0x8771f681, 0x6d9d6122,
   0xfde5380c, 0xa4beea44, 0x4bdecfa9, 0xf6bb4b60, 0xbebfbc70, 0x289b7ec6, 0xeaa127fa,
   0xd4ef3085, 0x04881d05, 0xd9d4d039, 0xe6db99e5, 0x1fa27cf8, 0xc4ac5665, 0xf4292244,
   0x432aff97, 0xab9423a7, 0xfc93a039, 0x655b59c3, 0x8f0ccc92, 0xffeff47d, 0x85845dd1,
   0x6fa87e4f, 0xfe2ce6e0, 0xa3014314, 0x4e0811a1, 0xf7537e82, 0xbd3af235, 0x2ad7d2bb,
   0xeb86d391]

/-- The 64 per-round left-rotation amounts. -/
def md5S : List Nat :=
  [7, 12, 17, 22, 7, 12, 17, 22, 7, 12, 17, 22, 7, 12, 17, 22,
   5, 9, 14, 20, 5, 9, 14, 20, 5, 9, 14, 20, 5, 9, 14, 20,
   4, 11, 16, 23, 4, 11, 16, 23, 4, 11, 16, 23, 4, 11, 16, 23,
   6, 10, 15, 21, 6, 10, 15, 21, 6, 10, 15, 21, 6, 10, 15, 21]

/-- The round function F/G/H/I, by step index. -/
def md5F (i B C D : Nat) : Nat :=
  if i < 16 then (B &&& C) ||| ((B ^^^ 0xffffffff) &&& D)
  else if i < 32 then (D &&& B) ||| ((D ^^^ 0xffffffff) &&& C)
  else if i < 48 then B ^^^ C ^^^ D
  else C ^^^ (B ||| (D ^^^ 0xffffffff))

/-- The message-word index used at each step. -/
def md5g (i : Nat) : Nat :=
  if i < 16 then i
  else if i < 32 then (5 * i + 1) % 16
  else if i < 48 then (3 * i + 5) % 16
  else (7 * i) % 16

/-- One MD5 step on the running state (A, B, C, D). -/
def md5Step (M : List Nat) (st : Nat × Nat × Nat × Nat) (i : Nat) : Nat × Nat × Nat × Nat :=
  let A := st.1
  let B := st.2.1
  let C := st.2.2.1
  let D := st.2.2.2
  let F := (md5F i B C D + A + md5K.getD i 0 + M.getD (md5g i) 0) % w32
  (D, (B + rotl32 F (md5S.getD i 0)) % w32, B, C)

/-- Little-endian bytes of `x`, `n` bytes wide. -/
def leBytes (n x : Nat) : List Nat :=
  (List.range n).map (fun i => x >>> (8 * i) % 256)

/-- The 16 little-endian 32-bit words of one 64-byte chunk. -/
def toWords (chunk : List Nat) : List Nat :=
  (List.range 16).map (fun i =>
    chunk.getD (4 * i) 0 + 256 * (chunk.getD (4 * i + 1) 0
      + 256 * (chunk.getD (4 * i + 2) 0 + 256 * chunk.getD (4 * i + 3) 0)))

/-- Process one 64-byte chunk. -/
def md5Chunk (st : Nat × Nat × Nat × Nat) (chunk : List Nat) : Nat × Nat × Nat × Nat :=
  let M := toWords chunk
  let r := (List.range 64).foldl (md5Step M) st
  ((st.1 + r.1) % w32, (st.2.1 + r.2.1) % w32, (st.2.2.1 + r.2.2.1) % w32,
    (st.2.2.2 + r.2.2.2) % w32)

/-- MD5 padding: append `0x80`, zero-fill to 56 mod 64, append the 64-bit little-endian
bit length. -/
def md5Pad (msg : List Nat) : List Nat :=
  let z := (56 + 64 - (msg.length + 1) % 64) % 64
  msg ++ [128] ++ List.replicate z 0 ++ leBytes 8 (msg.length * 8 % (w32 * w32))

/-- Split into 64-byte chunks, with fuel (the padded length is a multiple of 64). -/
def chunksGo : Nat → List Nat → List (List Nat)
  | 0, _ => []
  | n + 1, l => l.take 64 :: chunksGo n (l.drop 64)

/-- The 64-byte chunks of a padded message. -/
def chunks64 (l : List Nat) : List (List Nat) :=
  chunksGo (l.length / 64) l

/-- Two lower-case hex digits of a byte. -/
def byteHex (b : Nat) : String :=
  String.mk [hexDigit (b / 16 % 16), hexDigit (b % 16)]

/-- MD5 hex digest of a byte list, as `hashlib.md5(...).hexdigest()` returns it. -/
def md5hex (msg : List Nat) : String :=
  let r := (chunks64 (md5Pad msg)).foldl md5Chunk (0x67452301, 0xefcdab89, 0x98badcfe, 0x10325476)
  String.join ((leBytes 4 r.1 ++ leBytes 4 r.2.1 ++ leBytes 4 r.2.2.1 ++ leBytes 4 r.2.2.2).map
    byteHex)

/-- main.py 111-114: `generate_cache_key(endpoint, data)` is the MD5 hex digest of
`f"(endpoint):(json.dumps(data, sort_keys=True))"` joined with `":"`, UTF-8 encoded. -/
def generate_cache_key (endpoint : String) (data : List (String × JValue)) : String :=
  md5hex (strBytes (endpoint ++ ":" ++ dumpsSortKeys data))

/-! ## Enhanced search (main.py 327-384) -/

/-- main.py 39-48: one recipe entry of an upstream result list.  The float
`similarity_score` is modelled as `ℚ`. -/
structure Recipe where
  recipe_id : Int
  name : String
  category : String
  area : String
  thumbnail_url : Option String
  youtube_url : Option String
  similarity_score : Rat
  matched_content : String
  matched_type : String
deriving DecidableEq

/-- main.py 346-355: walk the gathered outcomes in task order (general, ingredients, dish),
extending the combined pool with each successful payload's result list and counting the
successes.  `none` stands for a gathered exception (or a payload without a `results` field),
which is logged and otherwise ignored. -/
def collectOutcomes : List (Option (List Recipe)) → List Recipe × Nat
  | [] => ([], 0)
  | o :: rest =>
    let r := collectOutcomes rest
    match o with
    | some payload => (payload ++ r.1, r.2 + 1)
    | none => r

/-- main.py 357-363: drop every recipe whose `recipe_id` is already in the `seen_ids` set,
keeping first occurrences.  The set is modelled as the list of ids added so far. -/
def removeDuplicates (seen : List Int) : List Recipe → List Recipe
  | [] => []
  | r :: rest =>
    if r.recipe_id ∈ seen then removeDuplicates seen rest
    else r :: removeDuplicates (r.recipe_id :: seen) rest

/-- The comparison `unique_results.sort(key=..., reverse=True)` sorts by: higher
`similarity_score` first. -/
def scoreDesc (a b : Recipe) : Prop :=
  b.similarity_score ≤ a.similarity_score

instance : DecidableRel scoreDesc := fun a b =>
  inferInstanceAs (Decidable (b.similarity_score ≤ a.similarity_score))

instance : IsTotal Recipe scoreDesc :=
  ⟨fun a b => le_total b.similarity_score a.similarity_score⟩

instance : IsTrans Recipe scoreDesc :=
  ⟨fun _ _ _ hab hbc => le_trans hbc hab⟩

/-- main.py 366: `unique_results.sort(key=lambda x: x["similarity_score"], reverse=True)`.
Python's sort is stable; any stable sort under the same comparison yields the same list, so it
is modelled by stable insertion sort with the descending comparison. -/
def sortByScoreDesc (l : List Recipe) : List Recipe :=
  List.insertionSort scoreDesc l

/-- main.py 371-380: the JSON object returned by `enhanced_search`. -/
structure EnhancedResponse where
  query : String
  search_type : String
  results : List Recipe
  count : Nat
  successful_searches : Nat
  total_searches : Nat
  cached : Bool
  response_time_ms : Nat
deriving DecidableEq

/-- main.py 327-380: the enhanced-search pipeline.  The three sub-search outcomes (each
dispatched with sub-limit `limit // 2`, awaited with `asyncio.gather(..., return_exceptions
=True)`) are inputs; the body only combines them: collect successes in task order, dedup by
`recipe_id` keeping first occurrences, stable-sort by `similarity_score` descending, truncate
to `limit`.  `elapsed` is the measured wall time. -/
def enhanced_search (query : String) (limit : Nat)
    (general ingredients dish : Option (List Recipe)) (elapsed : Nat) : EnhancedResponse :=
  let outcomes := [general, ingredients, dish]
  let collected := collectOutcomes outcomes
  let unique := removeDuplicates [] collected.1
  let final := (sortByScoreDesc unique).take limit
  { query := query
    search_type := "enhanced_parallel"
    results := final
    count := final.length
    successful_searches := collected.2
    total_searches := outcomes.length
    cached := false
    response_time_ms := elapsed }

/-- Spec §4.5 step 4, stated in the spec's own words: keep each first occurrence and discard
every later entry with the same `recipe_id`.  Used to compare `removeDuplicates` against the
specification text. -/
def keepFirstSpec : List Recipe → List Recipe
  | [] => []
  | r :: rest => r :: keepFirstSpec (rest.filter (fun x => x.recipe_id ≠ r.recipe_id))
termination_by l => l.length
decreasing_by
  simp only [List.length_cons]
  exact Nat.lt_succ_of_le (List.length_filter_le _ _)

/-! ## Cached single-operation endpoints (main.py 116-151, 189-325) -/

/-- The shape FastAPI's `HTTPException` surfaces: a status code and a detail message. -/
structure HTTPError where
  status_code : Nat
  detail : String
deriving DecidableEq

/-- What the upstream Laravel API does for one call: answer with a status and body, or be
unreachable (connection error / timeout). -/
inductive UpBehavior (α : Type) where
  | respond (status : Nat) (body : α)
  | unreachable (msg : String)

/-- main.py 139-151: `proxy_laravel_request`.  `raise_for_status()` raises for any non-2xx
status, mapped to an `HTTPException` carrying the upstream status; a transport error is mapped
to a 500. -/
def proxy_laravel_request {α : Type} : UpBehavior α → Except HTTPError α
  | .respond s b =>
    if 200 ≤ s ∧ s < 300 then .ok b else .error ⟨s, "Laravel API error"⟩
  | .unreachable m => .error ⟨500, "Request failed: " ++ m⟩

/-- A stored/returned result payload: the upstream body (type parameter: its shape is not the
proxy's concern) plus the two fields the handlers annotate, `cached` and `response_time_ms`.
main.py 208-210. -/
structure Annotated (α : Type) where
  body : α
  cached : Bool
  response_time_ms : Nat
deriving DecidableEq

/-- The redis store, modelled explicitly: `reachable := false` makes every operation raise
(the handlers swallow those errors); entries map keys to the JSON payloads written by `setex`.
TTL is not modelled (no entry expires within the properties below). -/
structure RedisState (α : Type) where
  reachable : Bool
  entries : List (String × Annotated α)
deriving DecidableEq

/-- main.py 116-127: `get_cached_result`.  A disabled client (`none`) or any raised store error
yields `None`; the caller cannot distinguish the causes. -/
def get_cached_result {α : Type} (redis : Option (RedisState α)) (key : String) :
    Option (Annotated α) :=
  match redis with
  | none => none
  | some st => if st.reachable then st.entries.lookup key else none

/-- main.py 129-137: `set_cached_result`.  A disabled client is a no-op; a raised store error
is caught and logged, leaving the store as it was. -/
def set_cached_result {α : Type} (redis : Option (RedisState α)) (key : String)
    (v : Annotated α) : Option (RedisState α) :=
  match redis with
  | none => none
  | some st =>
    if st.reachable then some ⟨st.reachable, (key, v) :: st.entries⟩ else some st

/-- main.py 189-215 (and its copies at 217-325): the common body of every cached
single-operation endpoint.  Derive the key, try the cache; on a hit return the stored payload
with `cached := true` and a freshly measured time; on a miss call upstream, and on success
annotate `cached := false` with the measured time, write to the cache and return.  An upstream
failure propagates and skips the cache write.  Returns the response outcome together with the
resulting cache state. -/
def cached_search {α : Type} (endpoint : String) (reqData : List (String × JValue))
    (redis : Option (RedisState α)) (up : UpBehavior α) (tHit tMiss : Nat) :
    Except HTTPError (Annotated α) × Option (RedisState α) :=
  let key := generate_cache_key endpoint reqData
  match get_cached_result redis key with
  | some stored => (.ok { stored with cached := true, response_time_ms := tHit }, redis)
  | none =>
    match proxy_laravel_request up with
    | .error e => (.error e, redis)
    | .ok body =>
      let result : Annotated α := ⟨body, false, tMiss⟩
      (.ok result, set_cached_result redis key result)

/-! ### Request validation (main.py 23-37) and the endpoint wrappers

FastAPI validates the pydantic request model before the handler body runs; an out-of-bound
field is rejected with a 422 before any cache or upstream access. -/

/-- `limit: int = Field(10, ge=1, le=50)`. -/
def validLimit (limit : Int) : Bool :=
  1 ≤ limit && limit ≤ 50

/-- A text field `Field(..., min_length=1, max_length=maxLen)`. -/
def validText (maxLen : Nat) (s : String) : Bool :=
  1 ≤ s.length && s.length ≤ maxLen

/-- The 422 rejection FastAPI produces for a failed request validation. -/
def validationError : HTTPError :=
  ⟨422, "request validation failed"⟩

/-- main.py 189-215: `POST /search/ingredients`, guarded by `IngredientSearchRequest`
(ingredients 1-500 chars, limit 1-50). -/
def search_by_ingredients {α : Type} (ingredients : String) (limit : Int)
    (redis : Option (RedisState α)) (up : UpBehavior α) (tHit tMiss : Nat) :
    Except HTTPError (Annotated α) × Option (RedisState α) :=
  if validText 500 ingredients && validLimit limit then
    cached_search "ingredients" [("ingredients", .str ingredients), ("limit", .num limit)]
      redis up tHit tMiss
  else (.error validationError, redis)

/-- main.py 217-237: `POST /search/cuisine`, guarded by `CuisineSearchRequest`
(cuisine 1-200 chars, limit 1-50). -/
def search_by_cuisine {α : Type} (cuisine : String) (limit : Int)
    (redis : Option (RedisState α)) (up : UpBehavior α) (tHit tMiss : Nat) :
    Except HTTPError (Annotated α) × Option (RedisState α) :=
  if validText 200 cuisine && validLimit limit then
    cached_search "cuisine" [("cuisine", .str cuisine), ("limit", .num limit)]
      redis up tHit tMiss
  else (.error validationError, redis)

/-- main.py 239-259: `POST /search/dish`, guarded by `DishSearchRequest`
(dish 1-200 chars, limit 1-50). -/
def search_by_dish {α : Type} (dish : String) (limit : Int)
    (redis : Option (RedisState α)) (up : UpBehavior α) (tHit tMiss : Nat) :
    Except HTTPError (Annotated α) × Option (RedisState α) :=
  if validText 200 dish && validLimit limit then
    cached_search "dish" [("dish", .str dish), ("limit", .num limit)] redis up tHit tMiss
  else (.error validationError, redis)

/-- main.py 261-281: `POST /search/general`, guarded by `SearchRequest`
(query 1-500 chars, limit 1-50). -/
def general_search {α : Type} (query : String) (limit : Int)
    (redis : Option (RedisState α)) (up : UpBehavior α) (tHit tMiss : Nat) :
    Except HTTPError (Annotated α) × Option (RedisState α) :=
  if validText 500 query && validLimit limit then
    cached_search "general" [("query", .str query), ("limit", .num limit)] redis up tHit tMiss
  else (.error validationError, redis)

/-- main.py 283-303: `POST /search/hybrid`, guarded by `SearchRequest`. -/
def hybrid_search {α : Type} (query : String) (limit : Int)
    (redis : Option (RedisState α)) (up : UpBehavior α) (tHit tMiss : Nat) :
    Except HTTPError (Annotated α) × Option (RedisState α) :=
  if validText 500 query && validLimit limit then
    cached_search "hybrid" [("query", .str query), ("limit", .num limit)] redis up tHit tMiss
  else (.error validationError, redis)

/-- main.py 305-325: `POST /search/similar/(recipe_id)`.  The handler signature is
`find_similar_recipes(recipe_id: int, limit: int = 5)`: the `limit` query parameter carries no
`ge`/`le` constraint, so FastAPI only coerces it to `int` and the body runs for any integer
value. -/
def find_similar_recipes {α : Type} (recipe_id : Int) (limit : Int)
    (redis : Option (RedisState α)) (up : UpBehavior α) (tHit tMiss : Nat) :
    Except HTTPError (Annotated α) × Option (RedisState α) :=
  cached_search "similar" [("recipe_id", .num recipe_id), ("limit", .num limit)]
    redis up tHit tMiss

/-- main.py 327-328: `POST /search/enhanced`, guarded by `SearchRequest`
(query 1-500 chars, limit 1-50); the handler never touches the cache. -/
def enhanced_search_endpoint (query : String) (limit : Int)
    (general ingredients dish : Option (List Recipe)) (elapsed : Nat) :
    Except HTTPError EnhancedResponse :=
  if validText 500 query && validLimit limit then
    .ok (enhanced_search query limit.toNat general ingredients dish elapsed)
  else .error validationError

/-! ## Helper lemmas: enhanced search -/

theorem collectOutcomes_snd (os : List (Option (List Recipe))) :
    (collectOutcomes os).2 = (os.filterMap id).length := by
  induction os with
  | nil => rfl
  | cons o rest ih => cases o <;> simp [collectOutcomes, ih]

theorem collectOutcomes_mem {os : List (Option (List Recipe))} {r : Recipe}
    (h : r ∈ (collectOutcomes os).1) : ∃ l ∈ os.filterMap id, r ∈ l := by
  induction os with
  | nil => simp [collectOutcomes] at h
  | cons o rest ih =>
    cases o with
    | none =>
      obtain ⟨l, hl, hr⟩ := ih h
      exact ⟨l, by simpa using hl, hr⟩
    | some payload =>
      rcases List.mem_append.1 h with hp | hrest
      · exact ⟨payload, by simp, hp⟩
      · obtain ⟨l, hl, hr⟩ := ih hrest
        exact ⟨l, by simpa using Or.inr hl, hr⟩

theorem removeDuplicates_subset (seen : List Int) (l : List Recipe) :
    removeDuplicates seen l ⊆ l := by
  induction l generalizing seen with
  | nil => simp [removeDuplicates]
  | cons r rest ih =>
    intro x hx
    by_cases h : r.recipe_id ∈ seen
    · simp only [removeDuplicates, if_pos h] at hx
      exact List.mem_cons_of_mem _ (ih seen hx)
    · simp only [removeDuplicates, if_neg h] at hx
      rcases List.mem_cons.1 hx with rfl | hx'
      · exact List.mem_cons_self _ _
      · exact List.mem_cons_of_mem _ (ih _ hx')

theorem removeDuplicates_spec (l : List Recipe) : ∀ seen : List Int,
    (∀ x ∈ removeDuplicates seen l, x.recipe_id ∉ seen) ∧
      ((removeDuplicates seen l).map Recipe.recipe_id).Nodup := by
  induction l with
  | nil => intro seen; simp [removeDuplicates]
  | cons r rest ih =>
    intro seen
    by_cases h : r.recipe_id ∈ seen
    · simpa only [removeDuplicates, if_pos h] using ih seen
    · simp only [removeDuplicates, if_neg h]
      refine ⟨?_, ?_⟩
      · intro x hx
        rcases List.mem_cons.1 hx with rfl | hx'
        · exact h
        · intro hmem
          exact (ih (r.recipe_id :: seen)).1 x hx' (List.mem_cons_of_mem _ hmem)
      · rw [List.map_cons, List.nodup_cons]
        refine ⟨?_, (ih (r.recipe_id :: seen)).2⟩
        intro hmem
        obtain ⟨x, hx, hxid⟩ := List.mem_map.1 hmem
        exact (ih (r.recipe_id :: seen)).1 x hx (by rw [hxid]; exact List.mem_cons_self _ _)

theorem keepFirstSpec_cons (r : Recipe) (rest : List Recipe) :
    keepFirstSpec (r :: rest) =
      r :: keepFirstSpec (rest.filter (fun x => x.recipe_id ≠ r.recipe_id)) := by
  rw [keepFirstSpec]

theorem removeDuplicates_eq_keepFirstSpec_filter (l : List Recipe) : ∀ seen : List Int,
    removeDuplicates seen l = keepFirstSpec (l.filter (fun x => x.recipe_id ∉ seen)) := by
  induction l with
  | nil => intro seen; simp [removeDuplicates, keepFirstSpec]
  | cons r rest ih =>
    intro seen
    by_cases h : r.recipe_id ∈ seen
    · simp only [removeDuplicates, if_pos h, List.filter_cons, decide_eq_true_eq]
      rw [if_neg (by simpa using h)]
      exact ih seen
    · simp only [removeDuplicates, if_neg h, List.filter_cons]
      rw [if_pos (by simpa using h), keepFirstSpec_cons, List.filter_filter]
      have hpred : ∀ x : Recipe,
          (decide (x.recipe_id ∉ seen) && decide (x.recipe_id ≠ r.recipe_id)) =
            decide (x.recipe_id ∉ r.recipe_id :: seen) := by
        intro x
        by_cases h1 : x.recipe_id = r.recipe_id <;> by_cases h2 : x.recipe_id ∈ seen <;>
          simp [h1, h2, List.mem_cons]
      rw [ih (r.recipe_id :: seen)]
      have heq : List.filter (fun a => decide (a.recipe_id ≠ r.recipe_id) &&
            decide (a.recipe_id ∉ seen)) rest =
          List.filter (fun x => decide (x.recipe_id ∉ r.recipe_id :: seen)) rest :=
        List.filter_congr (fun x _ => by rw [Bool.and_comm, hpred x])
      rw [heq]

/-- C1 helper: ids of the final enhanced results are pairwise distinct. -/
theorem enhanced_results_ids_nodup (q : String) (lim : Nat)
    (general ingredients dish : Option (List Recipe)) (t : Nat) :
    (((enhanced_search q lim general ingredients dish t).results).map
        Recipe.recipe_id).Nodup := by
  show (((sortByScoreDesc (removeDuplicates []
      (collectOutcomes [general, ingredients, dish]).1)).take lim).map Recipe.recipe_id).Nodup
  set unique := removeDuplicates [] (collectOutcomes [general, ingredients, dish]).1 with hu
  have hperm : List.Perm ((sortByScoreDesc unique).map Recipe.recipe_id)
      (unique.map Recipe.recipe_id) :=
    (List.perm_insertionSort scoreDesc unique).map _
  have hnodup : ((sortByScoreDesc unique).map Recipe.recipe_id).Nodup :=
    hperm.nodup_iff.2 (removeDuplicates_spec _ []).2
  rw [List.map_take]
  exact hnodup.sublist (List.take_sublist _ _)

/-! ## Stability of the descending sort -/

theorem filter_orderedInsert_score (c : Rat) (a : Recipe) :
    ∀ l : List Recipe,
      (List.orderedInsert scoreDesc a l).filter (fun x => x.similarity_score = c) =
        if a.similarity_score = c then
          a :: l.filter (fun x => x.similarity_score = c)
        else l.filter (fun x => x.similarity_score = c) := by
  intro l
  induction l with
  | nil =>
    by_cases h : a.similarity_score = c <;> simp [List.orderedInsert, List.filter, h]
  | cons b l ih =>
    by_cases hab : scoreDesc a b
    · rw [List.orderedInsert, if_pos hab]
      by_cases h : a.similarity_score = c <;> simp [List.filter_cons, h]
    · rw [List.orderedInsert, if_neg hab]
      have hlt : a.similarity_score < b.similarity_score := lt_of_not_le hab
      by_cases h : a.similarity_score = c
      · have hb : ¬(b.similarity_score = c) := by
          intro hc
          rw [h] at hlt
          rw [hc] at hlt
          exact lt_irrefl c hlt
        simp [List.filter_cons, h, hb, ih]
      · by_cases hb : b.similarity_score = c <;> simp [List.filter_cons, h, hb, ih]

theorem filter_sortByScoreDesc (c : Rat) (l : List Recipe) :
    (sortByScoreDesc l).filter (fun x => x.similarity_score = c) =
      l.filter (fun x => x.similarity_score = c) := by
  induction l with
  | nil => rfl
  | cons a l ih =>
    show (List.orderedInsert scoreDesc a (sortByScoreDesc l)).filter
        (fun x => x.similarity_score = c) = _
    rw [filter_orderedInsert_score]
    by_cases h : a.similarity_score = c <;> simp [List.filter_cons, h, ih]

/-! ## Claim theorems: enhanced search -/

/-- C1: in every enhanced search response no two results share a `recipe_id`, and the
deduplication pass is exactly the keep-the-first-occurrence discipline of the spec: walking the
combined pool in strategy order (general, ingredients, dish), each later entry whose
`recipe_id` was already seen is discarded, whatever its `similarity_score`. -/
theorem enhanced_dedup_invariant (q : String) (lim : Nat)
    (general ingredients dish : Option (List Recipe)) (t : Nat) :
    (((enhanced_search q lim general ingredients dish t).results).map
        Recipe.recipe_id).Nodup ∧
    ∀ pool : List Recipe, removeDuplicates [] pool = keepFirstSpec pool := by
  refine ⟨enhanced_results_ids_nodup q lim general ingredients dish t, ?_⟩
  intro pool
  rw [removeDuplicates_eq_keepFirstSpec_filter pool []]
  congr 1
  simp

/-- C2: every enhanced search response lists its results with non-increasing
`similarity_score`; the results are exactly the deduplicated pool sorted descending and then
truncated to the requested limit; and the sort is stable — for each score value, the entries
carrying it appear in the same order as in the pool being sorted. -/
theorem enhanced_ordering_invariant (q : String) (lim : Nat)
    (general ingredients dish : Option (List Recipe)) (t : Nat) :
    ((enhanced_search q lim general ingredients dish t).results).Pairwise
        (fun a b => b.similarity_score ≤ a.similarity_score) ∧
    (enhanced_search q lim general ingredients dish t).results =
      (sortByScoreDesc (removeDuplicates []
          (collectOutcomes [general, ingredients, dish]).1)).take lim ∧
    ∀ (l : List Recipe) (c : Rat),
      (sortByScoreDesc l).filter (fun x => x.similarity_score = c) =
        l.filter (fun x => x.similarity_score = c) := by
  refine ⟨?_, rfl, fun l c => filter_sortByScoreDesc c l⟩
  have hs : (sortByScoreDesc (removeDuplicates []
      (collectOutcomes [general, ingredients, dish]).1)).Pairwise scoreDesc :=
    List.sorted_insertionSort scoreDesc _
  exact (hs.sublist (List.take_sublist _ _))

/-- C4: when exactly one of the three sub-searches fails and the other two succeed, the
enhanced search still produces a response, with `successful_searches = 2`,
`total_searches = 3`, and every returned result drawn from one of the two succeeding
strategies' result lists. -/
theorem enhanced_partial_failure_tolerance (general ingredients dish : Option (List Recipe))
    (h : ([general, ingredients, dish].filterMap id).length = 2)
    (q : String) (lim t : Nat) :
    (enhanced_search q lim general ingredients dish t).successful_searches = 2 ∧
    (enhanced_search q lim general ingredients dish t).total_searches = 3 ∧
    (∀ r ∈ (enhanced_search q lim general ingredients dish t).results,
      ∃ l ∈ [general, ingredients, dish].filterMap id, r ∈ l) ∧
    ∀ limit : Int, validText 500 q = true → validLimit limit = true →
      enhanced_search_endpoint q limit general ingredients dish t =
        .ok (enhanced_search q limit.toNat general ingredients dish t) := by
  refine ⟨?_, rfl, ?_, ?_⟩
  · show (collectOutcomes [general, ingredients, dish]).2 = 2
    rw [collectOutcomes_snd]
    exact h
  · intro r hr
    have h1 : r ∈ sortByScoreDesc (removeDuplicates []
        (collectOutcomes [general, ingredients, dish]).1) :=
      (List.take_sublist _ _).subset hr
    have h2 : r ∈ removeDuplicates [] (collectOutcomes [general, ingredients, dish]).1 :=
      ((List.perm_insertionSort scoreDesc _).mem_iff).1 h1
    exact collectOutcomes_mem (removeDuplicates_subset _ _ h2)
  · intro limit hq hl
    simp [enhanced_search_endpoint, hq, hl]

/-- Witness for C4 at a concrete input: the ingredient search fails, the other two succeed. -/
theorem enhanced_partial_failure_tolerance_witness :
    ([some [(⟨1, "a", "c", "ar", none, none, 3, "m", "t"⟩ : Recipe)], none,
        some [(⟨2, "b", "c", "ar", none, none, 5, "m", "t"⟩ : Recipe)]].filterMap
        (id : Option (List Recipe) → Option (List Recipe))).length = 2 ∧
    (enhanced_search "pasta" 6
        (some [(⟨1, "a", "c", "ar", none, none, 3, "m", "t"⟩ : Recipe)]) none
        (some [(⟨2, "b", "c", "ar", none, none, 5, "m", "t"⟩ : Recipe)])
        7).successful_searches = 2 :=
  ⟨by decide, (enhanced_partial_failure_tolerance _ _ _ (by decide) "pasta" 6 7).1⟩

/-- C10: when all three sub-searches fail, the enhanced search still returns normally, with
no successful searches, three total searches, an empty result list and `count = 0`.  (The
combining code after the gather is total, so the outer exception handler at main.py 382-384 is
never reached on this path.) -/
theorem enhanced_all_failures (q : String) (lim t : Nat) :
    enhanced_search q lim none none none t =
      { query := q, search_type := "enhanced_parallel", results := [], count := 0,
        successful_searches := 0, total_searches := 3, cached := false,
        response_time_ms := t } := by
  simp [enhanced_search, collectOutcomes, removeDuplicates, sortByScoreDesc,
    List.insertionSort]

/-! ## Claim theorems: cache-key derivation -/

theorem sortKeysList_perm_eq {d1 d2 : List (String × JValue)} (hperm : d1.Perm d2)
    (hkeys : (d1.map Prod.fst).Nodup) : sortKeysList d1 = sortKeysList d2 := by
  haveI : IsTotal (String × JValue) (fun p q : String × JValue => p.1 ≤ q.1) :=
    ⟨fun a b => le_total a.1 b.1⟩
  haveI : IsTrans (String × JValue) (fun p q : String × JValue => p.1 ≤ q.1) :=
    ⟨fun _ _ _ h h2 => le_trans h h2⟩
  have hs1 : (sortKeysList d1).Pairwise (fun p q : String × JValue => p.1 ≤ q.1) :=
    List.sorted_insertionSort _ d1
  have hs2 : (sortKeysList d2).Pairwise (fun p q : String × JValue => p.1 ≤ q.1) :=
    List.sorted_insertionSort _ d2
  have hp1 : (sortKeysList d1).Perm d1 := List.perm_insertionSort _ d1
  have hp2 : (sortKeysList d2).Perm d2 := List.perm_insertionSort _ d2
  have hkeys2 : (d2.map Prod.fst).Nodup := ((hperm.map Prod.fst).nodup_iff).1 hkeys
  have hne1 : (sortKeysList d1).Pairwise (fun p q : String × JValue => p.1 ≠ q.1) :=
    List.pairwise_map.1 ((hp1.map Prod.fst).nodup_iff.2 hkeys)
  have hne2 : (sortKeysList d2).Pairwise (fun p q : String × JValue => p.1 ≠ q.1) :=
    List.pairwise_map.1 ((hp2.map Prod.fst).nodup_iff.2 hkeys2)
  have hss1 : (sortKeysList d1).Pairwise (fun p q : String × JValue => p.1 < q.1) :=
    (hs1.and hne1).imp (fun h => lt_of_le_of_ne h.1 h.2)
  have hss2 : (sortKeysList d2).Pairwise (fun p q : String × JValue => p.1 < q.1) :=
    (hs2.and hne2).imp (fun h => lt_of_le_of_ne h.1 h.2)
  haveI : IsAntisymm (String × JValue) (fun p q : String × JValue => p.1 < q.1) :=
    ⟨fun _ _ h h2 => absurd h2 (lt_asymm h)⟩
  exact List.eq_of_perm_of_sorted (hp1.trans (hperm.trans hp2.symm)) hss1 hss2

/-- C3: `generate_cache_key` is a pure function of the operation name and the key/value pairs
of the request dict: two calls whose parameter mappings hold the same pairs in any insertion
order produce the identical cache key (the serialization sorts the keys first, and MD5 is then
applied to the same canonical string). -/
theorem generate_cache_key_deterministic (endpoint : String)
    (d1 d2 : List (String × JValue)) (hperm : d1.Perm d2)
    (hkeys : (d1.map Prod.fst).Nodup) :
    generate_cache_key endpoint d1 = generate_cache_key endpoint d2 := by
  unfold generate_cache_key dumpsSortKeys
  rw [sortKeysList_perm_eq hperm hkeys]

/-- Witness for C3: the same two parameters supplied in the two insertion orders. -/
theorem generate_cache_key_deterministic_witness :
    ([("query", JValue.str "pasta"), ("limit", JValue.num 10)].Perm
        [("limit", JValue.num 10), ("query", JValue.str "pasta")] ∧
      ([("query", JValue.str "pasta"), ("limit", JValue.num 10)].map Prod.fst).Nodup) ∧
    generate_cache_key "general" [("query", JValue.str "pasta"), ("limit", JValue.num 10)] =
      generate_cache_key "general"
        [("limit", JValue.num 10), ("query", JValue.str "pasta")] :=
  ⟨⟨List.Perm.swap _ _ _, by decide⟩,
    generate_cache_key_deterministic "general" _ _ (List.Perm.swap _ _ _) (by decide)⟩

set_option maxRecDepth 40000 in
/-- C9: the cache key derivation does not normalize numeric and string representations of the
same logical value: a `limit` of `5` and a `limit` of `"5"` serialize differently and hash to
different cache keys. -/
theorem numeric_vs_string_limit_distinct_keys :
    generate_cache_key "similar" [("limit", JValue.num 5)] ≠
      generate_cache_key "similar" [("limit", JValue.str "5")] := by decide

/-! ## Claim theorems: cached endpoints -/

/-- C5, counterexample: `POST /search/similar/7?limit=100` is not rejected — the handler runs
the full pipeline: with an empty reachable cache and a responsive upstream it returns the
upstream body as a 200 payload and writes a new cache entry, so both cache and upstream I/O
happen for a limit far outside [1,50]. -/
theorem find_similar_accepts_out_of_range_limit :
    (find_similar_recipes 7 100 (some ⟨true, []⟩) (.respond 200 (0 : Nat)) 3 4).1 =
        .ok ⟨0, false, 4⟩ ∧
    (find_similar_recipes 7 100 (some ⟨true, []⟩) (.respond 200 (0 : Nat)) 3 4).2 ≠
        some ⟨true, []⟩ := by
  constructor
  · rfl
  · intro hcontra
    simp [find_similar_recipes, cached_search, get_cached_result, set_cached_result,
      proxy_laravel_request] at hcontra

/-- C5 (amended): every search endpoint that carries a pydantic request model — ingredients,
cuisine, dish, general, hybrid and enhanced — rejects a limit outside [1,50] with the
validation error before the cache or the upstream is touched (the cache state is returned
unchanged); the `/search/similar` endpoint's `limit` query parameter carries no such bound. -/
theorem body_endpoints_reject_bad_limit {α : Type} (limit : Int)
    (h : ¬(1 ≤ limit ∧ limit ≤ 50)) (text query : String) (redis : Option (RedisState α))
    (up : UpBehavior α) (tHit tMiss elapsed : Nat)
    (general ingredients dish : Option (List Recipe)) :
    search_by_ingredients text limit redis up tHit tMiss = (.error validationError, redis) ∧
    search_by_cuisine text limit redis up tHit tMiss = (.error validationError, redis) ∧
    search_by_dish text limit redis up tHit tMiss = (.error validationError, redis) ∧
    general_search query limit redis up tHit tMiss = (.error validationError, redis) ∧
    hybrid_search query limit redis up tHit tMiss = (.error validationError, redis) ∧
    enhanced_search_endpoint query limit general ingredients dish elapsed =
      .error validationError := by
  have hv : validLimit limit = false := by
    simp only [validLimit, Bool.and_eq_false_iff, decide_eq_false_iff_not]
    omega
  simp [search_by_ingredients, search_by_cuisine, search_by_dish, general_search,
    hybrid_search, enhanced_search_endpoint, hv]

/-- Witness for the amended C5 at `limit = 100`. -/
theorem body_endpoints_reject_bad_limit_witness :
    ¬((1 : Int) ≤ 100 ∧ (100 : Int) ≤ 50) ∧
    search_by_ingredients "chicken" 100 (some ⟨true, ([] : List (String × Annotated Nat))⟩)
        (.respond 200 0) 3 4 =
      (.error validationError, some ⟨true, []⟩) :=
  ⟨by decide, (body_endpoints_reject_bad_limit 100 (by decide) "chicken" "q"
    (some ⟨true, []⟩) (.respond 200 0) 3 4 5 none none none).1⟩

/-- C6: on a cache miss followed by an upstream failure — a non-2xx status or an unreachable
upstream — the cached endpoint propagates the corresponding typed failure (the upstream's
status, or a 500) and performs no cache write: the cache state it returns is exactly the one
it started from. -/
theorem upstream_failure_propagates_no_write {α : Type} (endpoint : String)
    (reqData : List (String × JValue)) (redis : Option (RedisState α)) (tHit tMiss : Nat)
    (hmiss : get_cached_result redis (generate_cache_key endpoint reqData) = none) :
    (∀ (s : Nat) (body : α), ¬(200 ≤ s ∧ s < 300) →
        cached_search endpoint reqData redis (.respond s body) tHit tMiss =
          (.error ⟨s, "Laravel API error"⟩, redis)) ∧
    (∀ msg : String, cached_search endpoint reqData redis (.unreachable msg) tHit tMiss =
        (.error ⟨500, "Request failed: " ++ msg⟩, redis)) := by
  constructor
  · intro s body hs
    simp [cached_search, hmiss, proxy_laravel_request, hs]
  · intro msg
    simp [cached_search, hmiss, proxy_laravel_request]

/-- Witness for C6: empty reachable cache, upstream answers 404. -/
theorem upstream_failure_propagates_no_write_witness :
    get_cached_result (some ⟨true, ([] : List (String × Annotated Nat))⟩)
        (generate_cache_key "ingredients"
          [("ingredients", JValue.str "chicken"), ("limit", JValue.num 5)]) = none ∧
    ¬((200 : Nat) ≤ 404 ∧ (404 : Nat) < 300) ∧
    cached_search "ingredients" [("ingredients", JValue.str "chicken"), ("limit", JValue.num 5)]
        (some ⟨true, ([] : List (String × Annotated Nat))⟩) (.respond 404 7) 3 4 =
      (.error ⟨404, "Laravel API error"⟩, some ⟨true, []⟩) :=
  ⟨rfl, by decide,
    (upstream_failure_propagates_no_write "ingredients"
      [("ingredients", JValue.str "chicken"), ("limit", JValue.num 5)]
      (some ⟨true, []⟩) 3 4 rfl).1 404 7 (by decide)⟩

/-- C7: with the cache store disabled (`none`) or unreachable, every cache read yields absent
rather than an error, every cache write leaves the state exactly as it was and propagates
nothing, and a cached endpoint still answers with the freshly computed upstream result.  (No
cache-specific failure exists in the handler's error type at all: cache trouble is only ever
absorbed.) -/
theorem cache_unavailable_degrades {α : Type} (redis : Option (RedisState α))
    (h : redis = none ∨ ∃ st, redis = some st ∧ st.reachable = false) :
    (∀ key, get_cached_result redis key = none) ∧
    (∀ key v, set_cached_result redis key v = redis) ∧
    (∀ (endpoint : String) (reqData : List (String × JValue)) (s : Nat) (body : α)
        (tHit tMiss : Nat), 200 ≤ s ∧ s < 300 →
        cached_search endpoint reqData redis (.respond s body) tHit tMiss =
          (.ok ⟨body, false, tMiss⟩, redis)) := by
  obtain rfl | ⟨st, rfl, hst⟩ := h
  · exact ⟨fun _ => rfl, fun _ _ => rfl, fun endpoint reqData s body tHit tMiss hs => by
      simp [cached_search, get_cached_result, set_cached_result, proxy_laravel_request, hs]⟩
  · refine ⟨fun key => by simp [get_cached_result, hst],
      fun key v => by simp [set_cached_result, hst],
      fun endpoint reqData s body tHit tMiss hs => by
        simp [cached_search, get_cached_result, set_cached_result,
          proxy_laravel_request, hs, hst]⟩

/-- Witness for C7: a present but unreachable store, upstream answering 200. -/
theorem cache_unavailable_degrades_witness :
    ((some ⟨false, ([] : List (String × Annotated Nat))⟩ :
        Option (RedisState Nat)) = none ∨
      ∃ st, (some ⟨false, ([] : List (String × Annotated Nat))⟩ :
        Option (RedisState Nat)) = some st ∧ st.reachable = false) ∧
    cached_search "dish" [("dish", JValue.str "pasta"), ("limit", JValue.num 5)]
        (some ⟨false, ([] : List (String × Annotated Nat))⟩) (.respond 200 9) 3 4 =
      (.ok ⟨9, false, 4⟩, some ⟨false, []⟩) :=
  ⟨Or.inr ⟨_, rfl, rfl⟩,
    (cache_unavailable_degrades _ (Or.inr ⟨_, rfl, rfl⟩)).2.2 "dish"
      [("dish", JValue.str "pasta"), ("limit", JValue.num 5)] 200 9 3 4 (by decide)⟩

/-- C8: a cache hit is transparent.  First conjunct: whenever the lookup returns a stored
payload, the endpoint answers with exactly that payload, its `cached` flag forced to `true`
and its `response_time_ms` replaced by the freshly measured time, and the cache state is left
unchanged.  Second conjunct, write-then-read: after a miss stores the annotated upstream
result, an immediate identical request answers with the body stored at write time (whatever
the upstream would do now), `cached = true`, and the new request's own measured time. -/
theorem cache_hit_transparency {α : Type} (endpoint : String)
    (reqData : List (String × JValue)) (entries : List (String × Annotated α)) (s : Nat)
    (body : α) (tH1 tM1 tH2 tM2 : Nat) (up2 : UpBehavior α)
    (hmiss : entries.lookup (generate_cache_key endpoint reqData) = none)
    (hs : 200 ≤ s ∧ s < 300) :
    (∀ (redis : Option (RedisState α)) (stored : Annotated α) (tHit tMiss : Nat)
        (up : UpBehavior α),
        get_cached_result redis (generate_cache_key endpoint reqData) = some stored →
        cached_search endpoint reqData redis up tHit tMiss =
          (.ok ⟨stored.body, true, tHit⟩, redis)) ∧
    (cached_search endpoint reqData
        ((cached_search endpoint reqData (some ⟨true, entries⟩)
          (.respond s body) tH1 tM1).2) up2 tH2 tM2).1 = .ok ⟨body, true, tH2⟩ := by
  constructor
  · intro redis stored tHit tMiss up hget
    simp [cached_search, hget]
  · have h1 : (cached_search endpoint reqData (some ⟨true, entries⟩)
        (.respond s body) tH1 tM1).2 =
        some ⟨true, (generate_cache_key endpoint reqData, ⟨body, false, tM1⟩) :: entries⟩ := by
      simp [cached_search, get_cached_result, hmiss, proxy_laravel_request, hs,
        set_cached_result]
    rw [h1]
    simp [cached_search, get_cached_result, List.lookup]

/-- Witness for C8: empty cache, a first request storing body 11, a repeat request hitting. -/
theorem cache_hit_transparency_witness :
    ([] : List (String × Annotated Nat)).lookup
        (generate_cache_key "general"
          [("query", JValue.str "pasta"), ("limit", JValue.num 5)]) = none ∧
    ((200 : Nat) ≤ 200 ∧ (200 : Nat) < 300) ∧
    (cached_search "general" [("query", JValue.str "pasta"), ("limit", JValue.num 5)]
        ((cached_search "general" [("query", JValue.str "pasta"), ("limit", JValue.num 5)]
          (some ⟨true, ([] : List (String × Annotated Nat))⟩)
          (.respond 200 11) 3 4).2) (.unreachable "down") 5 6).1 = .ok ⟨11, true, 5⟩ :=
  ⟨rfl, by decide,
    (cache_hit_transparency "general" [("query", JValue.str "pasta"), ("limit", JValue.num 5)]
      [] 200 11 3 4 5 6 (.unreachable "down") rfl (by decide)).2⟩
